import Mathlib

/-!
Shallow embedding of the GroupMessaging backend (Flask routes in
src/main/route/group.py and src/main/route/user.py, models in
src/main/model/*.py, guard in src/main/helper.py).

Records mirror the SQLAlchemy models; the database is a state of lists in
rowid (insertion) order.  Each route handler becomes a function from the
state and the request arguments to `Option (Resp × St)`: `some (r, st)` is
an HTTP response together with the post-state, `none` is an unhandled
exception escaping the handler (no JSON error response is produced).
`ORDER BY timestamp DESC` is embedded as a stable insertion sort over the
rows in rowid order, matching the storage collaborator observed by the
test suite.  The password hashing collaborator is out of scope and is
stood in by a tagging function.
-/

namespace GroupMessaging

/-- Row of the users table (src/main/model/user.py). -/
structure UserR where
  id : Nat
  username : String
  password_hash : String
  is_active : Bool
  is_admin : Bool
  created_at : Nat
  updated_at : Nat
  deriving DecidableEq

/-- Row of the groups table (src/main/model/group.py); `members` is the
group_members join table restricted to this group, in insertion order. -/
structure GroupR where
  id : Nat
  name : String
  members : List Nat
  deriving DecidableEq

/-- Row of the messages table (src/main/model/message.py). -/
structure MessageR where
  id : Nat
  text : String
  user_id : Nat
  group_id : Nat
  timestamp : Nat
  deriving DecidableEq

/-- Row of the likes table (src/main/model/message.py). -/
structure LikeR where
  id : Nat
  user_id : Nat
  message_id : Nat
  deriving DecidableEq

/-- The database state: every table in rowid (insertion) order, plus the
autoincrement counters. -/
structure St where
  users : List UserR
  groups : List GroupR
  messages : List MessageR
  likes : List LikeR
  nextUserId : Nat
  nextGroupId : Nat
  nextMessageId : Nat
  nextLikeId : Nat
  deriving DecidableEq

/-- Response payloads, one constructor per top-level JSON key shape. -/
inductive Payload where
  | message (m : MessageR)
  | messages (l : List MessageR) (total : Nat)
  | group (g : GroupR)
  | groups (l : List GroupR)
  | user (u : UserR)
  | users (l : List UserR)
  | members (l : List Nat)
  | note (s : String)
  deriving DecidableEq

/-- An HTTP response: status code with either a payload or an error string. -/
inductive Resp where
  | ok (code : Nat) (p : Payload)
  | err (code : Nat) (emsg : String)
  deriving DecidableEq

/-- Stand-in for the out-of-scope hashing collaborator
(werkzeug generate_password_hash). -/
def generate_password_hash (p : String) : String := "pbkdf2:" ++ p

/-- Outcome of the role_required guard body once the user row is loaded. -/
inductive GuardResult where
  | proceed
  | denied (code : Nat) (emsg : String)
  deriving DecidableEq

/-- src/main/helper.py role_required: loads the user row by the id embedded
in the token and dereferences it unconditionally; `none` models the
AttributeError raised when no row matches (user.is_admin on None). -/
def roleRequired (st : St) (roles : List String) (uid : Nat) : Option GuardResult :=
  match st.users.find? (fun u => u.id == uid) with
  | none => none
  | some user =>
    let role := if user.is_admin then "admin" else "user"
    if !(roles.contains role) then
      some (.denied 403 "You do not have the required role")
    else if !user.is_active then
      some (.denied 401 "User is disabled")
    else
      some .proceed

/-- Run a handler body behind the role_required guard. -/
def withGuard (st : St) (roles : List String) (uid : Nat)
    (body : St → Option (Resp × St)) : Option (Resp × St) :=
  match roleRequired st roles uid with
  | none => none
  | some (.denied c e) => some (.err c e, st)
  | some .proceed => body st

/-- Replace the first element satisfying p (SQLAlchemy mutates the single
loaded row that .first() returned). -/
def updateFirst (p : α → Bool) (f : α → α) : List α → List α
  | [] => []
  | x :: xs => if p x then f x :: xs else x :: updateFirst p f xs

/-- Does the needle occur as a leading run of the haystack. -/
def leadMatch : List Char → List Char → Bool
  | [], _ => true
  | _ :: _, [] => false
  | a :: as, b :: bs => a == b && leadMatch as bs

/-- Does the needle occur contiguously anywhere in the haystack. -/
def hasSub (needle : List Char) : List Char → Bool
  | [] => needle.isEmpty
  | b :: bs => leadMatch needle (b :: bs) || hasSub needle bs

/-- SQL `col ILIKE '%pat%'` for a wildcard-free pat: case-insensitive
contiguous containment. -/
def ilikeContains (hay pat : String) : Bool :=
  hasSub (pat.toList.map Char.toLower) (hay.toList.map Char.toLower)

/-- Insert a message into a timestamp-descending list, before the first
element whose timestamp does not exceed its own. -/
def insertDesc (m : MessageR) : List MessageR → List MessageR
  | [] => [m]
  | x :: xs => if x.timestamp ≤ m.timestamp then m :: x :: xs else x :: insertDesc m xs

/-- ORDER BY timestamp DESC over rows arriving in rowid order: a stable
sort, so equal timestamps keep insertion order. -/
def sortDesc : List MessageR → List MessageR
  | [] => []
  | x :: xs => insertDesc x (sortDesc xs)

/-- Roles accepted by every group/message endpoint. -/
def groupRoles : List String := ["admin", "user"]

/-- Roles accepted by the admin-only user CRUD endpoints. -/
def adminRoles : List String := ["admin"]

/-- The messages of one group in rowid order. -/
def msgsOf (st : St) (gid : Nat) : List MessageR :=
  st.messages.filter (fun m => m.group_id == gid)

/-- The messages of one group matching an ILIKE search, in rowid order. -/
def msgsMatching (st : St) (gid : Nat) (q : String) : List MessageR :=
  st.messages.filter (fun m => m.group_id == gid && ilikeContains m.text q)

/-- POST /groups (create_group): a null or duplicate name makes the commit
raise IntegrityError (name column is nullable=False unique), which the
handler catches, rolls back and maps to one fixed 400 error. -/
def create_group (st : St) (caller : Nat) (name? : Option String) :
    Option (Resp × St) :=
  withGuard st groupRoles caller (fun st =>
    match name? with
    | none => some (.err 400 "Group with this name already exists", st)
    | some name =>
      if st.groups.any (fun g => g.name == name) then
        some (.err 400 "Group with this name already exists", st)
      else
        let g : GroupR := ⟨st.nextGroupId, name, []⟩
        some (.ok 201 (.group g),
          { st with groups := st.groups ++ [g], nextGroupId := st.nextGroupId + 1 }))

/-- DELETE /groups/id (delete_group); the storage collaborator cascades
the group's messages and their likes away. -/
def delete_group (st : St) (caller : Nat) (gid : Nat) : Option (Resp × St) :=
  withGuard st groupRoles caller (fun st =>
    match st.groups.find? (fun g => g.id == gid) with
    | none => some (.err 404 "Group not found", st)
    | some _ =>
      let gone := (st.messages.filter (fun m => m.group_id == gid)).map (fun m => m.id)
      some (.ok 200 (.note "Group deleted successfully"),
        { st with groups := st.groups.eraseP (fun g => g.id == gid),
                  messages := st.messages.filter (fun m => !(m.group_id == gid)),
                  likes := st.likes.filter (fun l => !(gone.contains l.message_id)) }))

/-- POST /groups/id/members (add_member). -/
def add_member (st : St) (caller : Nat) (gid uid : Nat) : Option (Resp × St) :=
  withGuard st groupRoles caller (fun st =>
    match st.groups.find? (fun g => g.id == gid) with
    | none => some (.err 404 "Group not found", st)
    | some g =>
      match st.users.find? (fun u => u.id == uid) with
      | none => some (.err 404 "User not found", st)
      | some _ =>
        if g.members.contains uid then
          some (.err 409 "User is already a member of this group", st)
        else
          some (.ok 201 (.note "User added to group successfully"),
            { st with groups :=
                (updateFirst (fun g => g.id == gid)
                  (fun g => { g with members := g.members ++ [uid] }) st.groups) }))

/-- POST /groups/id/remove_member (remove_member): a missing user id, an
unknown user and a known non-member all hit the same 404. -/
def remove_member (st : St) (caller : Nat) (gid : Nat) (uid? : Option Nat) :
    Option (Resp × St) :=
  withGuard st groupRoles caller (fun st =>
    match st.groups.find? (fun g => g.id == gid) with
    | none => some (.err 404 "Group not found", st)
    | some g =>
      match uid? with
      | none => some (.err 404 "User not found", st)
      | some uid =>
        match st.users.find? (fun u => u.id == uid) with
        | none => some (.err 404 "User not found", st)
        | some _ =>
          if !(g.members.contains uid) then
            some (.err 404 "User not found", st)
          else
            let g2 : GroupR := { g with members := g.members.erase uid }
            some (.ok 200 (.group g2),
              { st with groups :=
                  (updateFirst (fun g => g.id == gid)
                    (fun g => { g with members := g.members.erase uid }) st.groups) }))

/-- POST /groups/id/messages (post_message): group existence, then caller
membership, then insert with server-set timestamp. -/
def post_message (st : St) (caller : Nat) (gid : Nat) (text : String) (now : Nat) :
    Option (Resp × St) :=
  withGuard st groupRoles caller (fun st =>
    match st.groups.find? (fun g => g.id == gid) with
    | none => some (.err 404 "Group not found", st)
    | some g =>
      if !(g.members.contains caller) then
        some (.err 401 "You must be a member of the group to post messages", st)
      else
        let m : MessageR := ⟨st.nextMessageId, text, caller, gid, now⟩
        some (.ok 201 (.message m),
          { st with messages := st.messages ++ [m],
                    nextMessageId := st.nextMessageId + 1 }))

/-- GET /groups/id/messages (list_messages). -/
def list_messages (st : St) (caller : Nat) (gid : Nat) : Option (Resp × St) :=
  withGuard st groupRoles caller (fun st =>
    match st.groups.find? (fun g => g.id == gid) with
    | none => some (.err 404 "Group not found", st)
    | some g =>
      if !(g.members.contains caller) then
        some (.err 401 "You must be a member of the group to view messages", st)
      else
        let l := sortDesc (msgsOf st gid)
        some (.ok 200 (.messages l l.length), st))

/-- POST /groups/id/messages/search (search_messages); the membership
error string is the post_message one, verbatim from the source. -/
def search_messages (st : St) (caller : Nat) (gid : Nat) (q : String) :
    Option (Resp × St) :=
  withGuard st groupRoles caller (fun st =>
    match st.groups.find? (fun g => g.id == gid) with
    | none => some (.err 404 "Group not found", st)
    | some g =>
      if !(g.members.contains caller) then
        some (.err 401 "You must be a member of the group to post messages", st)
      else
        let l := sortDesc (msgsMatching st gid q)
        some (.ok 200 (.messages l l.length), st))

/-- GET /groups/id/messages/mid (get_message). -/
def get_message (st : St) (caller : Nat) (gid mid : Nat) : Option (Resp × St) :=
  withGuard st groupRoles caller (fun st =>
    match st.groups.find? (fun g => g.id == gid) with
    | none => some (.err 404 "Group not found", st)
    | some g =>
      if !(g.members.contains caller) then
        some (.err 401 "You must be a member of the group to view messages", st)
      else
        match st.messages.find? (fun m => m.id == mid && m.group_id == gid) with
        | none => some (.err 404 "Message not found.", st)
        | some m => some (.ok 200 (.message m), st))

/-- PUT /groups/id/messages/mid (edit_message): group existence and
message existence, then ownership against the token id; no membership
check; mutates text only. -/
def edit_message (st : St) (caller : Nat) (gid mid : Nat) (newText : String) :
    Option (Resp × St) :=
  withGuard st groupRoles caller (fun st =>
    match st.groups.find? (fun g => g.id == gid) with
    | none => some (.err 404 "Group not found", st)
    | some _ =>
      match st.messages.find? (fun m => m.id == mid && m.group_id == gid) with
      | none => some (.err 404 "Message not found", st)
      | some m =>
        if !(caller == m.user_id) then
          some (.err 401 "You are not authorized to edit this message", st)
        else
          some (.ok 201 (.message { m with text := newText }),
            { st with messages :=
                (updateFirst (fun m => m.id == mid && m.group_id == gid)
                  (fun m => { m with text := newText }) st.messages) }))

/-- DELETE /groups/id/messages/mid (delete_message): same lookups and
ownership check as edit; the storage collaborator cascades the likes. -/
def delete_message (st : St) (caller : Nat) (gid mid : Nat) : Option (Resp × St) :=
  withGuard st groupRoles caller (fun st =>
    match st.groups.find? (fun g => g.id == gid) with
    | none => some (.err 404 "Group not found", st)
    | some _ =>
      match st.messages.find? (fun m => m.id == mid && m.group_id == gid) with
      | none => some (.err 404 "Message not found", st)
      | some m =>
        if !(caller == m.user_id) then
          some (.err 401 "You are not authorized to delete this message", st)
        else
          some (.ok 200 (.note "Message deleted successfully"),
            { st with
                messages := (st.messages.eraseP (fun m => m.id == mid && m.group_id == gid)),
                likes := st.likes.filter (fun l => !(l.message_id == mid)) }))

/-- POST /groups/id/messages/mid/like (like_message): the self-like check
runs before the duplicate-like lookup; no membership check. -/
def like_message (st : St) (caller : Nat) (gid mid : Nat) : Option (Resp × St) :=
  withGuard st groupRoles caller (fun st =>
    match st.groups.find? (fun g => g.id == gid) with
    | none => some (.err 404 "Group not found", st)
    | some _ =>
      match st.messages.find? (fun m => m.id == mid && m.group_id == gid) with
      | none => some (.err 404 "Message not found", st)
      | some m =>
        if m.user_id == caller then
          some (.err 400 "Cannot like your own message", st)
        else
          match st.likes.find? (fun l => l.user_id == caller && l.message_id == mid) with
          | some _ => some (.err 400 "Already liked this message", st)
          | none =>
            let lk : LikeR := ⟨st.nextLikeId, caller, mid⟩
            some (.ok 201 (.note "Liked successfully"),
              { st with likes := st.likes ++ [lk], nextLikeId := st.nextLikeId + 1 }))

/-- DELETE /groups/id/messages/mid/like (unlike_message). -/
def unlike_message (st : St) (caller : Nat) (gid mid : Nat) : Option (Resp × St) :=
  withGuard st groupRoles caller (fun st =>
    match st.groups.find? (fun g => g.id == gid) with
    | none => some (.err 404 "Group not found", st)
    | some _ =>
      match st.messages.find? (fun m => m.id == mid && m.group_id == gid) with
      | none => some (.err 404 "Message not found", st)
      | some _ =>
        match st.likes.find? (fun l => l.user_id == caller && l.message_id == mid) with
        | none => some (.err 400 "You have not liked this message", st)
        | some _ =>
          some (.ok 200 (.note "Unliked successfully"),
            { st with likes :=
                st.likes.eraseP (fun l => l.user_id == caller && l.message_id == mid) }))

/-- POST /users (create_user): the commit is NOT wrapped in try/except, so
a username colliding with the unique column raises IntegrityError out of
the handler (`none`); src/main/route/user.py lines 63-81. -/
def create_user (st : St) (caller : Nat) (username password : String)
    (is_active : Bool := true) (is_admin : Bool := false) (now : Nat := 0) :
    Option (Resp × St) :=
  withGuard st adminRoles caller (fun st =>
    if st.users.any (fun u => u.username == username) then
      none
    else
      let u : UserR :=
        ⟨st.nextUserId, username, generate_password_hash password,
         is_active, is_admin, now, now⟩
      some (.ok 201 (.user u),
        { st with users := st.users ++ [u], nextUserId := st.nextUserId + 1 }))

/-- Partial-update patch for PUT /users/id. -/
structure UserPatch where
  username : Option String
  password : Option String
  is_active : Option Bool
  is_admin : Option Bool
  deriving DecidableEq

/-- Apply a patch to one user row, re-hashing a supplied password and
refreshing updated_at. -/
def applyPatch (p : UserPatch) (now : Nat) (u : UserR) : UserR :=
  let u := match p.username with | none => u | some v => { u with username := v }
  let u := match p.password with
    | none => u
    | some v => { u with password_hash := generate_password_hash v }
  let u := match p.is_active with | none => u | some v => { u with is_active := v }
  let u := match p.is_admin with | none => u | some v => { u with is_admin := v }
  { u with updated_at := now }

/-- PUT /users/id (update_user). -/
def update_user (st : St) (caller : Nat) (uid : Nat) (p : UserPatch) (now : Nat) :
    Option (Resp × St) :=
  withGuard st adminRoles caller (fun st =>
    match st.users.find? (fun u => u.id == uid) with
    | none => some (.err 404 "User not found", st)
    | some u =>
      some (.ok 201 (.user (applyPatch p now u)),
        { st with users :=
            (updateFirst (fun u => u.id == uid) (applyPatch p now) st.users) }))

/-- DELETE /users/id (delete_user); the storage collaborator cascades the
memberships away. -/
def delete_user (st : St) (caller : Nat) (uid : Nat) : Option (Resp × St) :=
  withGuard st adminRoles caller (fun st =>
    match st.users.find? (fun u => u.id == uid) with
    | none => some (.err 404 "User not found", st)
    | some _ =>
      some (.ok 200 (.note "User deleted successfully"),
        { st with users := st.users.eraseP (fun u => u.id == uid),
                  groups := st.groups.map
                    (fun g => { g with members := g.members.filter (fun m => !(m == uid)) }) }))

/-! Guard lemmas. -/

theorem roleRequired_none_of_absent (st : St) (roles : List String) (uid : Nat)
    (h : st.users.find? (fun u => u.id == uid) = none) :
    roleRequired st roles uid = none := by
  unfold roleRequired
  rw [h]

theorem roleRequired_groupRoles_proceed (st : St) (uid : Nat) (u : UserR)
    (hu : st.users.find? (fun v => v.id == uid) = some u)
    (hact : u.is_active = true) :
    roleRequired st groupRoles uid = some .proceed := by
  unfold roleRequired
  rw [hu]
  cases hAdmin : u.is_admin <;> simp [groupRoles, hact, hAdmin]

theorem withGuard_proceed (st : St) (roles : List String) (uid : Nat)
    (body : St → Option (Resp × St))
    (h : roleRequired st roles uid = some .proceed) :
    withGuard st roles uid body = body st := by
  unfold withGuard
  rw [h]

/-- Sample database used to witness the claims at concrete inputs. -/
def sampleU1 : UserR := ⟨1, "alice", "h", true, false, 0, 0⟩

/-- Second sample user. -/
def sampleU2 : UserR := ⟨2, "bob", "h", true, false, 0, 0⟩

/-- Third sample user, an admin. -/
def sampleU3 : UserR := ⟨3, "carol", "h", true, true, 0, 0⟩

/-- Sample message authored by user 1 in group 1. -/
def sampleM1 : MessageR := ⟨1, "Hello", 1, 1, 10⟩

/-- Sample message authored by user 2 in group 1, same timestamp as sampleM1. -/
def sampleM2 : MessageR := ⟨2, "World", 2, 1, 10⟩

/-- Later sample message authored by user 2 in group 1. -/
def sampleM3 : MessageR := ⟨3, "say hello", 2, 1, 12⟩

/-- Sample state: three users, one group whose only member is user 2,
three messages, one like by user 1 on message 2. -/
def sampleSt : St :=
  ⟨[sampleU1, sampleU2, sampleU3], [⟨1, "g1", [2]⟩],
   [sampleM1, sampleM2, sampleM3], [⟨1, 1, 2⟩], 4, 2, 4, 2⟩

/-- Claim C9: the role guard looks the token id up in the user store and
dereferences the row unconditionally, so it raises (returns `none`) exactly
when no user row matches — there is no 401/403/404 branch for an absent
user — and a guarded endpoint such as post_message crashes the same way. -/
theorem guard_crashes_iff_user_absent (st : St) (roles : List String) (uid : Nat) :
    (roleRequired st roles uid = none ↔
      st.users.find? (fun u => u.id == uid) = none)
    ∧ (st.users.find? (fun u => u.id == uid) = none →
        ∀ gid text now, post_message st uid gid text now = none) := by
  constructor
  · constructor
    · intro hnone
      cases hfind : st.users.find? (fun u => u.id == uid) with
      | none => rfl
      | some u =>
        simp only [roleRequired, hfind] at hnone
        repeat' split at hnone
        all_goals simp_all
    · exact roleRequired_none_of_absent st roles uid
  · intro h gid text now
    unfold post_message withGuard
    rw [roleRequired_none_of_absent st groupRoles uid h]

/-- Witness for C9 at the sample state: token id 99 matches no user, the
guard crashes and so does post_message. -/
theorem guard_crashes_iff_user_absent_witness :
    roleRequired sampleSt groupRoles 99 = none ∧
      post_message sampleSt 99 1 "x" 0 = none :=
  ⟨(guard_crashes_iff_user_absent sampleSt groupRoles 99).1.mpr rfl,
   (guard_crashes_iff_user_absent sampleSt groupRoles 99).2 rfl 1 "x" 0⟩

/-- Claim C2: whenever the caller authored the message, like_message fails
400 "Cannot like your own message" and leaves the state unchanged; the
statement quantifies over every like table, so the self-like check decides
before any duplicate-like lookup and no Like row is created. -/
theorem self_like_always_rejected (st : St) (caller gid mid : Nat)
    (u : UserR) (g : GroupR) (m : MessageR)
    (hu : st.users.find? (fun v => v.id == caller) = some u)
    (hact : u.is_active = true)
    (hg : st.groups.find? (fun v => v.id == gid) = some g)
    (hm : st.messages.find? (fun v => v.id == mid && v.group_id == gid) = some m)
    (hself : m.user_id = caller) :
    like_message st caller gid mid =
      some (.err 400 "Cannot like your own message", st) := by
  unfold like_message
  rw [withGuard_proceed st groupRoles caller _
    (roleRequired_groupRoles_proceed st caller u hu hact)]
  rw [hg, hm]
  simp [hself]

/-- Witness for C2: in the sample state user 1 has already liked message 2,
yet its author user 2 liking it is refused as a self-like, and liking their
own yet-unliked message 3 is refused the same way. -/
theorem self_like_always_rejected_witness :
    like_message sampleSt 2 1 2 =
        some (.err 400 "Cannot like your own message", sampleSt) ∧
      like_message sampleSt 2 1 3 =
        some (.err 400 "Cannot like your own message", sampleSt) :=
  ⟨self_like_always_rejected sampleSt 2 1 2 sampleU2 ⟨1, "g1", [2]⟩ sampleM2
      rfl rfl rfl rfl rfl,
   self_like_always_rejected sampleSt 2 1 3 sampleU2 ⟨1, "g1", [2]⟩ sampleM3
      rfl rfl rfl rfl rfl⟩

/-- Claim C5: edit_message and delete_message by any caller other than the
author fail 401 Unauthorized with the state unchanged; the caller row u is
arbitrary, in particular its is_admin flag, so an admin who is not the
author is rejected exactly like an ordinary user. -/
theorem edit_delete_require_authorship (st : St) (caller gid mid : Nat)
    (newText : String) (u : UserR) (g : GroupR) (m : MessageR)
    (hu : st.users.find? (fun v => v.id == caller) = some u)
    (hact : u.is_active = true)
    (hg : st.groups.find? (fun v => v.id == gid) = some g)
    (hm : st.messages.find? (fun v => v.id == mid && v.group_id == gid) = some m)
    (hne : caller ≠ m.user_id) :
    edit_message st caller gid mid newText =
        some (.err 401 "You are not authorized to edit this message", st)
    ∧ delete_message st caller gid mid =
        some (.err 401 "You are not authorized to delete this message", st) := by
  have hb : (caller == m.user_id) = false := beq_eq_false_iff_ne.mpr hne
  constructor
  · unfold edit_message
    rw [withGuard_proceed st groupRoles caller _
      (roleRequired_groupRoles_proceed st caller u hu hact)]
    simp [hg, hm, hb]
  · unfold delete_message
    rw [withGuard_proceed st groupRoles caller _
      (roleRequired_groupRoles_proceed st caller u hu hact)]
    simp [hg, hm, hb]

/-- Witness for C5: the admin user 3 is not the author of message 1 and is
refused on both edit and delete. -/
theorem edit_delete_require_authorship_witness :
    edit_message sampleSt 3 1 1 "z" =
        some (.err 401 "You are not authorized to edit this message", sampleSt)
    ∧ delete_message sampleSt 3 1 1 =
        some (.err 401 "You are not authorized to delete this message", sampleSt) :=
  edit_delete_require_authorship sampleSt 3 1 1 "z" sampleU3 ⟨1, "g1", [2]⟩ sampleM1
    rfl rfl rfl rfl (by decide)

/-- The admin guard proceeds for an active admin user row. -/
theorem roleRequired_adminRoles_proceed (st : St) (uid : Nat) (u : UserR)
    (hu : st.users.find? (fun v => v.id == uid) = some u)
    (hadmin : u.is_admin = true) (hact : u.is_active = true) :
    roleRequired st adminRoles uid = some .proceed := by
  unfold roleRequired
  rw [hu]
  simp [adminRoles, hadmin, hact]

/-- Claim C6 (code evaluated at the failing input): create_user does not
wrap its commit in try/except, so a duplicate username makes the handler
raise the storage IntegrityError (`none`) instead of returning any
Conflict response; contrast create_group, which catches the same error. -/
theorem create_user_duplicate_username_crashes (st : St) (caller : Nat)
    (un pw : String) (ia ad : Bool) (now : Nat) (u : UserR)
    (hu : st.users.find? (fun v => v.id == caller) = some u)
    (hadmin : u.is_admin = true) (hact : u.is_active = true)
    (hdup : st.users.any (fun v => v.username == un) = true) :
    create_user st caller un pw ia ad now = none := by
  unfold create_user
  rw [withGuard_proceed st adminRoles caller _
    (roleRequired_adminRoles_proceed st caller u hu hadmin hact)]
  rw [hdup]
  rfl

/-- Witness for C6: the admin user 3 re-creating the taken username alice
crashes the request. -/
theorem create_user_duplicate_username_crashes_witness :
    create_user sampleSt 3 "alice" "pw" true false 0 = none :=
  create_user_duplicate_username_crashes sampleSt 3 "alice" "pw" true false 0
    sampleU3 rfl rfl rfl rfl

/-- Claim C10: create_group maps every IntegrityError of the commit —
including the not-null violation of a request without a name field — to
the one 400 duplicate-name error, rolled back with the state unchanged. -/
theorem create_group_integrity_error_mapping (st : St) (caller : Nat) (u : UserR)
    (hu : st.users.find? (fun v => v.id == caller) = some u)
    (hact : u.is_active = true) :
    create_group st caller none =
        some (.err 400 "Group with this name already exists", st)
    ∧ ∀ nm, st.groups.any (fun g => g.name == nm) = true →
        create_group st caller (some nm) =
          some (.err 400 "Group with this name already exists", st) := by
  constructor
  · unfold create_group
    rw [withGuard_proceed st groupRoles caller _
      (roleRequired_groupRoles_proceed st caller u hu hact)]
  · intro nm hdup
    unfold create_group
    rw [withGuard_proceed st groupRoles caller _
      (roleRequired_groupRoles_proceed st caller u hu hact)]
    simp [hdup]

/-- Witness for C10: a nameless create and a duplicate g1 both return the
same 400 with the state untouched. -/
theorem create_group_integrity_error_mapping_witness :
    create_group sampleSt 1 none =
        some (.err 400 "Group with this name already exists", sampleSt)
    ∧ create_group sampleSt 1 (some "g1") =
        some (.err 400 "Group with this name already exists", sampleSt) :=
  ⟨(create_group_integrity_error_mapping sampleSt 1 sampleU1 rfl rfl).1,
   (create_group_integrity_error_mapping sampleSt 1 sampleU1 rfl rfl).2 "g1" rfl⟩

/-- Claim C8: remove_member fails 404 "Group not found" when the group id
is absent; with the group present, a missing user_id field, an unknown
user id and a known user outside the member set all fail with the same
404 "User not found"; otherwise it erases exactly that id from the member
set and returns the updated group. -/
theorem remove_member_cases (st : St) (caller gid : Nat) (u : UserR)
    (hu : st.users.find? (fun v => v.id == caller) = some u)
    (hact : u.is_active = true) :
    (st.groups.find? (fun g => g.id == gid) = none →
      ∀ uid?, remove_member st caller gid uid? =
        some (.err 404 "Group not found", st))
    ∧ (∀ g, st.groups.find? (fun v => v.id == gid) = some g →
        ∀ uid?, (uid? = none
            ∨ (∃ uid, uid? = some uid ∧
                st.users.find? (fun v => v.id == uid) = none)
            ∨ (∃ uid, uid? = some uid ∧ g.members.contains uid = false)) →
          remove_member st caller gid uid? =
            some (.err 404 "User not found", st))
    ∧ (∀ g uid w, st.groups.find? (fun v => v.id == gid) = some g →
        st.users.find? (fun v => v.id == uid) = some w →
        g.members.contains uid = true →
        remove_member st caller gid (some uid) =
          some (.ok 200 (.group { g with members := g.members.erase uid }),
            { st with groups :=
                (updateFirst (fun g => g.id == gid)
                  (fun g => { g with members := g.members.erase uid }) st.groups) })) := by
  refine ⟨?_, ?_, ?_⟩
  · intro hg uid?
    unfold remove_member
    rw [withGuard_proceed st groupRoles caller _
      (roleRequired_groupRoles_proceed st caller u hu hact)]
    simp [hg]
  · intro g hg uid? hbad
    unfold remove_member
    rw [withGuard_proceed st groupRoles caller _
      (roleRequired_groupRoles_proceed st caller u hu hact)]
    rcases hbad with h | ⟨uid, huid, hnone⟩ | ⟨uid, huid, hnm⟩
    · simp [hg, h]
    · simp [hg, huid, hnone]
    · have hnm2 : uid ∉ g.members := by simpa using hnm
      cases hfind : st.users.find? (fun v => v.id == uid) with
      | none => simp [hg, huid, hfind]
      | some w => simp [hg, huid, hfind, hnm2]
  · intro g uid w hg hw hmem
    have hmem2 : uid ∈ g.members := by simpa using hmem
    unfold remove_member
    rw [withGuard_proceed st groupRoles caller _
      (roleRequired_groupRoles_proceed st caller u hu hact)]
    simp [hg, hw, hmem2]

/-- Witness for C8: missing group 9, missing user 7, non-member user 1 and
the member user 2 of group 1 in the sample state. -/
theorem remove_member_cases_witness :
    remove_member sampleSt 1 9 (some 2) = some (.err 404 "Group not found", sampleSt)
    ∧ remove_member sampleSt 1 1 none = some (.err 404 "User not found", sampleSt)
    ∧ remove_member sampleSt 1 1 (some 7) = some (.err 404 "User not found", sampleSt)
    ∧ remove_member sampleSt 1 1 (some 1) = some (.err 404 "User not found", sampleSt)
    ∧ remove_member sampleSt 1 1 (some 2) =
        some (.ok 200 (.group ⟨1, "g1", []⟩),
          { sampleSt with groups := [⟨1, "g1", []⟩] }) := by
  have h := remove_member_cases sampleSt 1 1 sampleU1 rfl rfl
  have h9 := remove_member_cases sampleSt 1 9 sampleU1 rfl rfl
  refine ⟨h9.1 rfl (some 2), ?_, ?_, ?_, ?_⟩
  · exact h.2.1 ⟨1, "g1", [2]⟩ rfl none (Or.inl rfl)
  · exact h.2.1 ⟨1, "g1", [2]⟩ rfl (some 7) (Or.inr (Or.inl ⟨7, rfl, rfl⟩))
  · exact h.2.1 ⟨1, "g1", [2]⟩ rfl (some 1) (Or.inr (Or.inr ⟨1, rfl, rfl⟩))
  · exact h.2.2 ⟨1, "g1", [2]⟩ 2 sampleU2 rfl rfl rfl

/-- Claim C1: with the group present and the caller outside its member
set, post_message, list_messages, get_message and search_messages all
fail 401 Unauthorized; edit_message, delete_message, like_message and
unlike_message never consult the member set, so the same non-member
succeeds at them whenever only existence (plus authorship for edit and
delete) holds. -/
theorem membership_gating_asymmetry (st : St) (caller gid : Nat)
    (u : UserR) (g : GroupR)
    (hu : st.users.find? (fun v => v.id == caller) = some u)
    (hact : u.is_active = true)
    (hg : st.groups.find? (fun v => v.id == gid) = some g)
    (hnm : caller ∉ g.members) :
    (∀ text now, post_message st caller gid text now =
      some (.err 401 "You must be a member of the group to post messages", st))
    ∧ list_messages st caller gid =
        some (.err 401 "You must be a member of the group to view messages", st)
    ∧ (∀ mid, get_message st caller gid mid =
        some (.err 401 "You must be a member of the group to view messages", st))
    ∧ (∀ q, search_messages st caller gid q =
        some (.err 401 "You must be a member of the group to post messages", st))
    ∧ (∀ mid m newText,
        st.messages.find? (fun v => v.id == mid && v.group_id == gid) = some m →
        m.user_id = caller →
        edit_message st caller gid mid newText =
          some (.ok 201 (.message { m with text := newText }),
            { st with messages :=
                (updateFirst (fun v => v.id == mid && v.group_id == gid)
                  (fun v => { v with text := newText }) st.messages) }))
    ∧ (∀ mid m,
        st.messages.find? (fun v => v.id == mid && v.group_id == gid) = some m →
        m.user_id = caller →
        delete_message st caller gid mid =
          some (.ok 200 (.note "Message deleted successfully"),
            { st with
                messages := (st.messages.eraseP (fun v => v.id == mid && v.group_id == gid)),
                likes := st.likes.filter (fun l => !(l.message_id == mid)) }))
    ∧ (∀ mid m,
        st.messages.find? (fun v => v.id == mid && v.group_id == gid) = some m →
        m.user_id ≠ caller →
        st.likes.find? (fun l => l.user_id == caller && l.message_id == mid) = none →
        like_message st caller gid mid =
          some (.ok 201 (.note "Liked successfully"),
            { st with likes := st.likes ++ [⟨st.nextLikeId, caller, mid⟩],
                      nextLikeId := st.nextLikeId + 1 }))
    ∧ (∀ mid m lk,
        st.messages.find? (fun v => v.id == mid && v.group_id == gid) = some m →
        st.likes.find? (fun l => l.user_id == caller && l.message_id == mid) = some lk →
        unlike_message st caller gid mid =
          some (.ok 200 (.note "Unliked successfully"),
            { st with likes :=
                (st.likes.eraseP (fun l => l.user_id == caller && l.message_id == mid)) })) := by
  have hpro := roleRequired_groupRoles_proceed st caller u hu hact
  refine ⟨?_, ?_, ?_, ?_, ?_, ?_, ?_, ?_⟩
  · intro text now
    unfold post_message
    rw [withGuard_proceed st groupRoles caller _ hpro]
    simp [hg, hnm]
  · unfold list_messages
    rw [withGuard_proceed st groupRoles caller _ hpro]
    simp [hg, hnm]
  · intro mid
    unfold get_message
    rw [withGuard_proceed st groupRoles caller _ hpro]
    simp [hg, hnm]
  · intro q
    unfold search_messages
    rw [withGuard_proceed st groupRoles caller _ hpro]
    simp [hg, hnm]
  · intro mid m newText hm hmine
    unfold edit_message
    rw [withGuard_proceed st groupRoles caller _ hpro]
    simp [hg, hm, hmine]
  · intro mid m hm hmine
    unfold delete_message
    rw [withGuard_proceed st groupRoles caller _ hpro]
    simp [hg, hm, hmine]
  · intro mid m hm hne hlk
    have hb : (m.user_id == caller) = false := beq_eq_false_iff_ne.mpr hne
    unfold like_message
    rw [withGuard_proceed st groupRoles caller _ hpro]
    simp [hg, hm, hb, hlk]
  · intro mid m lk hm hlk
    unfold unlike_message
    rw [withGuard_proceed st groupRoles caller _ hpro]
    simp [hg, hm, hlk]

/-- Witness for C1: user 1 is not a member of group 1, is refused all four
reads/posts, yet edits and deletes their own message 1, likes message 3
and unlikes message 2 there. -/
theorem membership_gating_asymmetry_witness :
    post_message sampleSt 1 1 "x" 20 =
        some (.err 401 "You must be a member of the group to post messages", sampleSt)
    ∧ list_messages sampleSt 1 1 =
        some (.err 401 "You must be a member of the group to view messages", sampleSt)
    ∧ get_message sampleSt 1 1 2 =
        some (.err 401 "You must be a member of the group to view messages", sampleSt)
    ∧ search_messages sampleSt 1 1 "hello" =
        some (.err 401 "You must be a member of the group to post messages", sampleSt)
    ∧ edit_message sampleSt 1 1 1 "z" =
        some (.ok 201 (.message ⟨1, "z", 1, 1, 10⟩),
          { sampleSt with messages := [⟨1, "z", 1, 1, 10⟩, sampleM2, sampleM3] })
    ∧ delete_message sampleSt 1 1 1 =
        some (.ok 200 (.note "Message deleted successfully"),
          { sampleSt with messages := [sampleM2, sampleM3], likes := [⟨1, 1, 2⟩] })
    ∧ like_message sampleSt 1 1 3 =
        some (.ok 201 (.note "Liked successfully"),
          { sampleSt with likes := [⟨1, 1, 2⟩, ⟨2, 1, 3⟩], nextLikeId := 3 })
    ∧ unlike_message sampleSt 1 1 2 =
        some (.ok 200 (.note "Unliked successfully"),
          { sampleSt with likes := [] }) := by
  have h := membership_gating_asymmetry sampleSt 1 1 sampleU1 ⟨1, "g1", [2]⟩
    rfl rfl rfl (by decide)
  exact ⟨h.1 "x" 20, h.2.1, h.2.2.1 2, h.2.2.2.1 "hello",
    h.2.2.2.2.1 1 sampleM1 "z" rfl rfl,
    h.2.2.2.2.2.1 1 sampleM1 rfl rfl,
    h.2.2.2.2.2.2.1 3 sampleM3 rfl (by decide) rfl,
    h.2.2.2.2.2.2.2 2 sampleM2 ⟨1, 1, 2⟩ rfl rfl⟩

/-! Ordering lemmas for the embedded ORDER BY timestamp DESC. -/

/-- Timestamp-descending sortedness. -/
def TsSorted (l : List MessageR) : Prop :=
  l.Pairwise (fun a b => b.timestamp ≤ a.timestamp)

theorem insertDesc_perm (m : MessageR) (l : List MessageR) :
    List.Perm (insertDesc m l) (m :: l) := by
  induction l with
  | nil => exact List.Perm.refl _
  | cons x xs ih =>
    unfold insertDesc
    split
    · exact List.Perm.refl _
    · exact (List.Perm.cons x ih).trans (List.Perm.swap m x xs)

theorem mem_insertDesc {a m : MessageR} {l : List MessageR} :
    a ∈ insertDesc m l ↔ a = m ∨ a ∈ l := by
  rw [(insertDesc_perm m l).mem_iff]
  simp

theorem sortDesc_perm (l : List MessageR) : List.Perm (sortDesc l) l := by
  induction l with
  | nil => exact List.Perm.refl _
  | cons x xs ih => exact (insertDesc_perm x (sortDesc xs)).trans (List.Perm.cons x ih)

theorem tsSorted_insertDesc (m : MessageR) {l : List MessageR} (h : TsSorted l) :
    TsSorted (insertDesc m l) := by
  induction l with
  | nil => simp [insertDesc, TsSorted]
  | cons x xs ih =>
    rw [TsSorted, List.pairwise_cons] at h
    unfold insertDesc
    split
    · rename_i hle
      rw [TsSorted, List.pairwise_cons]
      refine ⟨?_, List.Pairwise.cons h.1 h.2⟩
      intro b hb
      rcases List.mem_cons.mp hb with rfl | hb2
      · exact hle
      · exact le_trans (h.1 b hb2) hle
    · rename_i hgt
      push_neg at hgt
      rw [TsSorted, List.pairwise_cons]
      refine ⟨?_, ih h.2⟩
      intro b hb
      rcases mem_insertDesc.mp hb with hbm | hb
      · exact hbm ▸ le_of_lt hgt
      · exact h.1 b hb

theorem tsSorted_sortDesc (l : List MessageR) : TsSorted (sortDesc l) := by
  induction l with
  | nil => simp [sortDesc, TsSorted]
  | cons x xs ih => exact tsSorted_insertDesc x ih

theorem filter_ts_insertDesc (t : Nat) (m : MessageR) (l : List MessageR) :
    (insertDesc m l).filter (fun x => x.timestamp == t)
      = if m.timestamp == t then m :: l.filter (fun x => x.timestamp == t)
        else l.filter (fun x => x.timestamp == t) := by
  induction l with
  | nil =>
    by_cases hm : m.timestamp = t <;> simp [insertDesc, List.filter_cons, hm]
  | cons x xs ih =>
    unfold insertDesc
    split
    · by_cases hm : m.timestamp = t <;> simp [List.filter_cons, hm]
    · rename_i hgt
      push_neg at hgt
      by_cases hm : m.timestamp = t
      · have hx : x.timestamp ≠ t := by omega
        simp [List.filter_cons, ih, hm, hx]
      · simp only [List.filter_cons, ih]
        by_cases hx : x.timestamp = t <;> simp [hm, hx]

theorem sortDesc_stable (l : List MessageR) (t : Nat) :
    (sortDesc l).filter (fun x => x.timestamp == t)
      = l.filter (fun x => x.timestamp == t) := by
  induction l with
  | nil => rfl
  | cons x xs ih =>
    rw [sortDesc, filter_ts_insertDesc, ih, List.filter_cons]

/-! Substring characterization of the embedded ILIKE. -/

theorem leadMatch_iff (n h : List Char) :
    leadMatch n h = true ↔ ∃ t, h = n ++ t := by
  induction n generalizing h with
  | nil => simp [leadMatch]
  | cons a as ih =>
    cases h with
    | nil => simp [leadMatch]
    | cons b bs =>
      simp only [leadMatch, Bool.and_eq_true, beq_iff_eq, ih, List.cons_append,
        List.cons.injEq]
      constructor
      · rintro ⟨hab, t, ht⟩
        exact ⟨t, hab.symm, ht⟩
      · rintro ⟨t, hba, ht⟩
        exact ⟨hba.symm, t, ht⟩

theorem hasSub_iff (n h : List Char) :
    hasSub n h = true ↔ ∃ l1 l2, h = l1 ++ n ++ l2 := by
  induction h with
  | nil =>
    simp only [hasSub, List.isEmpty_iff]
    constructor
    · rintro rfl
      exact ⟨[], [], rfl⟩
    · rintro ⟨l1, l2, hl⟩
      rcases List.append_eq_nil.mp (List.append_eq_nil.mp hl.symm).1 with ⟨-, hn⟩
      exact hn
  | cons b bs ih =>
    simp only [hasSub, Bool.or_eq_true, leadMatch_iff, ih]
    constructor
    · rintro (⟨t, ht⟩ | ⟨l1, l2, hl⟩)
      · exact ⟨[], t, by simp [ht]⟩
      · exact ⟨b :: l1, l2, by simp [hl]⟩
    · rintro ⟨l1, l2, hl⟩
      cases l1 with
      | nil => exact Or.inl ⟨l2, by simpa using hl⟩
      | cons c l1 =>
        rcases List.cons.injEq .. ▸ hl with ⟨-, hbs⟩
        exact Or.inr ⟨l1, l2, by simpa using hbs⟩

/-- Claim C4: for a member caller, list_messages returns exactly the
stable timestamp-descending sort of the group's messages together with
their count, and search_messages does the same for the case-insensitive
substring matches: the result is a permutation of the selected rows,
pairwise descending in timestamp, and rows of equal timestamp keep their
insertion (rowid) order. -/
theorem message_ordering_contract (st : St) (caller gid : Nat) (q : String)
    (u : UserR) (g : GroupR)
    (hu : st.users.find? (fun v => v.id == caller) = some u)
    (hact : u.is_active = true)
    (hg : st.groups.find? (fun v => v.id == gid) = some g)
    (hmem : caller ∈ g.members) :
    (list_messages st caller gid =
      some (.ok 200 (.messages (sortDesc (msgsOf st gid))
        (sortDesc (msgsOf st gid)).length), st))
    ∧ List.Perm (sortDesc (msgsOf st gid)) (msgsOf st gid)
    ∧ TsSorted (sortDesc (msgsOf st gid))
    ∧ (∀ t, (sortDesc (msgsOf st gid)).filter (fun x => x.timestamp == t)
        = (msgsOf st gid).filter (fun x => x.timestamp == t))
    ∧ (search_messages st caller gid q =
        some (.ok 200 (.messages (sortDesc (msgsMatching st gid q))
          (sortDesc (msgsMatching st gid q)).length), st))
    ∧ List.Perm (sortDesc (msgsMatching st gid q)) (msgsMatching st gid q)
    ∧ TsSorted (sortDesc (msgsMatching st gid q))
    ∧ (∀ t, (sortDesc (msgsMatching st gid q)).filter (fun x => x.timestamp == t)
        = (msgsMatching st gid q).filter (fun x => x.timestamp == t))
    ∧ (∀ m, m ∈ msgsMatching st gid q ↔
        m ∈ st.messages ∧ m.group_id = gid ∧
          ∃ l1 l2, m.text.toList.map Char.toLower
            = l1 ++ q.toList.map Char.toLower ++ l2) := by
  have hpro := roleRequired_groupRoles_proceed st caller u hu hact
  refine ⟨?_, sortDesc_perm _, tsSorted_sortDesc _, sortDesc_stable _,
    ?_, sortDesc_perm _, tsSorted_sortDesc _, sortDesc_stable _, ?_⟩
  · unfold list_messages
    rw [withGuard_proceed st groupRoles caller _ hpro]
    simp [hg, hmem]
  · unfold search_messages
    rw [withGuard_proceed st groupRoles caller _ hpro]
    simp [hg, hmem]
  · intro m
    unfold msgsMatching
    rw [List.mem_filter]
    simp only [Bool.and_eq_true, beq_iff_eq, and_assoc]
    rw [ilikeContains, hasSub_iff]

/-- Witness for C4 at the sample state: member caller 2, where messages 1
and 2 share a timestamp and keep insertion order behind message 3, and a
case-insensitive search for HELL matches messages 3 and 1. -/
theorem message_ordering_contract_witness :
    list_messages sampleSt 2 1 =
        some (.ok 200 (.messages [sampleM3, sampleM1, sampleM2] 3), sampleSt)
    ∧ List.Perm (sortDesc (msgsOf sampleSt 1)) (msgsOf sampleSt 1)
    ∧ TsSorted (sortDesc (msgsOf sampleSt 1))
    ∧ search_messages sampleSt 2 1 "HELL" =
        some (.ok 200 (.messages [sampleM3, sampleM1] 2), sampleSt)
    ∧ (sampleM3 ∈ msgsMatching sampleSt 1 "HELL" ↔
        sampleM3 ∈ sampleSt.messages ∧ sampleM3.group_id = 1 ∧
          ∃ l1 l2, sampleM3.text.toList.map Char.toLower
            = l1 ++ "HELL".toList.map Char.toLower ++ l2) := by
  have h := message_ordering_contract sampleSt 2 1 "HELL" sampleU2 ⟨1, "g1", [2]⟩
    rfl rfl rfl (by decide)
  exact ⟨h.1, h.2.1, h.2.2.1, h.2.2.2.2.1, h.2.2.2.2.2.2.2.2 sampleM3⟩

theorem updateFirst_append_of_none {α : Type} (p : α → Bool) (f : α → α)
    (l1 l2 : List α) (h : ∀ x ∈ l1, p x = false) :
    updateFirst p f (l1 ++ l2) = l1 ++ updateFirst p f l2 := by
  induction l1 with
  | nil => rfl
  | cons x xs ih =>
    simp [updateFirst, h x (List.mem_cons_self x xs),
      ih (fun y hy => h y (List.mem_cons_of_mem x hy))]

/-- Claim C7: posting then reading returns a message with exactly the
given text, the caller as owner and the group id, stamped with the
serving time; editing it as its author then reading returns the new text
with the creation timestamp untouched. -/
theorem post_edit_get_round_trip (st : St) (caller gid : Nat)
    (text newText : String) (now : Nat) (u : UserR) (g : GroupR)
    (hu : st.users.find? (fun v => v.id == caller) = some u)
    (hact : u.is_active = true)
    (hg : st.groups.find? (fun v => v.id == gid) = some g)
    (hmem : caller ∈ g.members)
    (hfresh : ∀ m ∈ st.messages, m.id ≠ st.nextMessageId) :
    post_message st caller gid text now =
      some (.ok 201 (.message ⟨st.nextMessageId, text, caller, gid, now⟩),
        { st with
            messages := st.messages ++ [⟨st.nextMessageId, text, caller, gid, now⟩],
            nextMessageId := st.nextMessageId + 1 })
    ∧ get_message
        { st with
            messages := st.messages ++ [⟨st.nextMessageId, text, caller, gid, now⟩],
            nextMessageId := st.nextMessageId + 1 } caller gid st.nextMessageId =
      some (.ok 200 (.message ⟨st.nextMessageId, text, caller, gid, now⟩),
        { st with
            messages := st.messages ++ [⟨st.nextMessageId, text, caller, gid, now⟩],
            nextMessageId := st.nextMessageId + 1 })
    ∧ edit_message
        { st with
            messages := st.messages ++ [⟨st.nextMessageId, text, caller, gid, now⟩],
            nextMessageId := st.nextMessageId + 1 } caller gid st.nextMessageId newText =
      some (.ok 201 (.message ⟨st.nextMessageId, newText, caller, gid, now⟩),
        { st with
            messages := st.messages ++ [⟨st.nextMessageId, newText, caller, gid, now⟩],
            nextMessageId := st.nextMessageId + 1 })
    ∧ get_message
        { st with
            messages := st.messages ++ [⟨st.nextMessageId, newText, caller, gid, now⟩],
            nextMessageId := st.nextMessageId + 1 } caller gid st.nextMessageId =
      some (.ok 200 (.message ⟨st.nextMessageId, newText, caller, gid, now⟩),
        { st with
            messages := st.messages ++ [⟨st.nextMessageId, newText, caller, gid, now⟩],
            nextMessageId := st.nextMessageId + 1 }) := by
  have hpro := roleRequired_groupRoles_proceed st caller u hu hact
  have hnone1 : st.messages.find?
      (fun m => m.id == st.nextMessageId && m.group_id == gid) = none :=
    List.find?_eq_none.mpr (fun x hx => by simp [hfresh x hx])
  have hfind1 : (st.messages ++ [(⟨st.nextMessageId, text, caller, gid, now⟩ : MessageR)]).find?
      (fun m => m.id == st.nextMessageId && m.group_id == gid)
      = some ⟨st.nextMessageId, text, caller, gid, now⟩ := by
    rw [List.find?_append, hnone1]
    simp
  have hfind2 : (st.messages ++ [(⟨st.nextMessageId, newText, caller, gid, now⟩ : MessageR)]).find?
      (fun m => m.id == st.nextMessageId && m.group_id == gid)
      = some ⟨st.nextMessageId, newText, caller, gid, now⟩ := by
    rw [List.find?_append, hnone1]
    simp
  have hupd : updateFirst (fun m => m.id == st.nextMessageId && m.group_id == gid)
      (fun m => { m with text := newText })
      (st.messages ++ [(⟨st.nextMessageId, text, caller, gid, now⟩ : MessageR)])
      = st.messages ++ [⟨st.nextMessageId, newText, caller, gid, now⟩] := by
    rw [updateFirst_append_of_none _ _ _ _ (fun x hx => by simp [hfresh x hx])]
    simp [updateFirst]
  have hpro1 : roleRequired
      { st with
          messages := st.messages ++ [⟨st.nextMessageId, text, caller, gid, now⟩],
          nextMessageId := st.nextMessageId + 1 } groupRoles caller
      = some .proceed :=
    roleRequired_groupRoles_proceed _ caller u hu hact
  have hpro2 : roleRequired
      { st with
          messages := st.messages ++ [⟨st.nextMessageId, newText, caller, gid, now⟩],
          nextMessageId := st.nextMessageId + 1 } groupRoles caller
      = some .proceed :=
    roleRequired_groupRoles_proceed _ caller u hu hact
  refine ⟨?_, ?_, ?_, ?_⟩
  · unfold post_message
    rw [withGuard_proceed st groupRoles caller _ hpro]
    simp [hg, hmem]
  · unfold get_message
    rw [withGuard_proceed _ groupRoles caller _ hpro1]
    simp [hg, hmem, hfind1]
  · unfold edit_message
    rw [withGuard_proceed _ groupRoles caller _ hpro1]
    simp [hg, hfind1, hupd]
  · unfold get_message
    rw [withGuard_proceed _ groupRoles caller _ hpro2]
    simp [hg, hmem, hfind2]

/-- Witness for C7 at the sample state: member 2 posts in group 1, reads
the same text back, edits it and reads the new text with the original
timestamp 20. -/
theorem post_edit_get_round_trip_witness :
    post_message sampleSt 2 1 "hi" 20 =
      some (.ok 201 (.message ⟨4, "hi", 2, 1, 20⟩),
        { sampleSt with messages := [sampleM1, sampleM2, sampleM3, ⟨4, "hi", 2, 1, 20⟩],
                        nextMessageId := 5 })
    ∧ get_message
        { sampleSt with messages := [sampleM1, sampleM2, sampleM3, ⟨4, "hi", 2, 1, 20⟩],
                        nextMessageId := 5 } 2 1 4 =
      some (.ok 200 (.message ⟨4, "hi", 2, 1, 20⟩),
        { sampleSt with messages := [sampleM1, sampleM2, sampleM3, ⟨4, "hi", 2, 1, 20⟩],
                        nextMessageId := 5 })
    ∧ edit_message
        { sampleSt with messages := [sampleM1, sampleM2, sampleM3, ⟨4, "hi", 2, 1, 20⟩],
                        nextMessageId := 5 } 2 1 4 "bye" =
      some (.ok 201 (.message ⟨4, "bye", 2, 1, 20⟩),
        { sampleSt with messages := [sampleM1, sampleM2, sampleM3, ⟨4, "bye", 2, 1, 20⟩],
                        nextMessageId := 5 })
    ∧ get_message
        { sampleSt with messages := [sampleM1, sampleM2, sampleM3, ⟨4, "bye", 2, 1, 20⟩],
                        nextMessageId := 5 } 2 1 4 =
      some (.ok 200 (.message ⟨4, "bye", 2, 1, 20⟩),
        { sampleSt with messages := [sampleM1, sampleM2, sampleM3, ⟨4, "bye", 2, 1, 20⟩],
                        nextMessageId := 5 }) :=
  post_edit_get_round_trip sampleSt 2 1 "hi" "bye" 20 sampleU2 ⟨1, "g1", [2]⟩
    rfl rfl rfl (by decide) (by decide)

/-! Reachability and the like-uniqueness invariant. -/

/-- No two like rows share a (user_id, message_id) pair. -/
def LikesOK (l : List LikeR) : Prop :=
  l.Pairwise (fun a b => ¬(a.user_id = b.user_id ∧ a.message_id = b.message_id))

/-- One state-changing API call with some response. -/
inductive Step : St → St → Prop where
  | createUser {st st2 : St} {c : Nat} {un pw : String} {ia ad : Bool} {now : Nat}
      {r : Resp} (h : create_user st c un pw ia ad now = some (r, st2)) : Step st st2
  | updateUser {st st2 : St} {c uid : Nat} {p : UserPatch} {now : Nat} {r : Resp}
      (h : update_user st c uid p now = some (r, st2)) : Step st st2
  | deleteUser {st st2 : St} {c uid : Nat} {r : Resp}
      (h : delete_user st c uid = some (r, st2)) : Step st st2
  | createGroup {st st2 : St} {c : Nat} {nm : Option String} {r : Resp}
      (h : create_group st c nm = some (r, st2)) : Step st st2
  | deleteGroup {st st2 : St} {c gid : Nat} {r : Resp}
      (h : delete_group st c gid = some (r, st2)) : Step st st2
  | addMember {st st2 : St} {c gid uid : Nat} {r : Resp}
      (h : add_member st c gid uid = some (r, st2)) : Step st st2
  | removeMember {st st2 : St} {c gid : Nat} {uid? : Option Nat} {r : Resp}
      (h : remove_member st c gid uid? = some (r, st2)) : Step st st2
  | postMessage {st st2 : St} {c gid : Nat} {t : String} {now : Nat} {r : Resp}
      (h : post_message st c gid t now = some (r, st2)) : Step st st2
  | editMessage {st st2 : St} {c gid mid : Nat} {t : String} {r : Resp}
      (h : edit_message st c gid mid t = some (r, st2)) : Step st st2
  | deleteMessage {st st2 : St} {c gid mid : Nat} {r : Resp}
      (h : delete_message st c gid mid = some (r, st2)) : Step st st2
  | likeMessage {st st2 : St} {c gid mid : Nat} {r : Resp}
      (h : like_message st c gid mid = some (r, st2)) : Step st st2
  | unlikeMessage {st st2 : St} {c gid mid : Nat} {r : Resp}
      (h : unlike_message st c gid mid = some (r, st2)) : Step st st2

/-- States reachable from st0 through any sequence of API calls. -/
def Reachable (st0 st : St) : Prop := Relation.ReflTransGen Step st0 st

theorem some_pair_eq {a r : Resp} {S st2 : St}
    (h : some (a, S) = some (r, st2)) : r = a ∧ st2 = S := by
  injection h with h1
  injection h1 with h2 h3
  exact ⟨h2.symm, h3.symm⟩

theorem withGuard_some {st st2 : St} {roles : List String} {uid : Nat}
    {body : St → Option (Resp × St)} {r : Resp}
    (h : withGuard st roles uid body = some (r, st2)) :
    st2 = st ∨ body st = some (r, st2) := by
  unfold withGuard at h
  cases hg : roleRequired st roles uid with
  | none =>
    rw [hg] at h
    exact absurd h (by simp)
  | some g =>
    rw [hg] at h
    cases g with
    | denied c e => exact Or.inl (some_pair_eq h).2
    | proceed => exact Or.inr h

theorem step_likesOK {st st2 : St} (h : Step st st2) (hok : LikesOK st.likes) :
    LikesOK st2.likes := by
  cases h
  case likeMessage c gid mid r heq =>
    unfold like_message at heq
    rcases withGuard_some heq with rfl | hbody
    · exact hok
    · dsimp only at hbody
      cases hgf : st.groups.find? (fun g => g.id == gid) with
      | none =>
        simp only [hgf] at hbody
        rcases some_pair_eq hbody with ⟨-, rfl⟩
        exact hok
      | some g =>
        simp only [hgf] at hbody
        cases hmf : st.messages.find? (fun m => m.id == mid && m.group_id == gid) with
        | none =>
          simp only [hmf] at hbody
          rcases some_pair_eq hbody with ⟨-, rfl⟩
          exact hok
        | some m =>
          simp only [hmf] at hbody
          by_cases hself : (m.user_id == c) = true
          · rw [if_pos hself] at hbody
            rcases some_pair_eq hbody with ⟨-, rfl⟩
            exact hok
          · rw [if_neg hself] at hbody
            cases hlf : st.likes.find? (fun l => l.user_id == c && l.message_id == mid) with
            | some lk =>
              simp only [hlf] at hbody
              rcases some_pair_eq hbody with ⟨-, rfl⟩
              exact hok
            | none =>
              simp only [hlf] at hbody
              rcases some_pair_eq hbody with ⟨-, rfl⟩
              refine List.pairwise_append.mpr ⟨hok, by simp, ?_⟩
              intro a ha b hb
              rcases List.mem_singleton.mp hb with rfl
              rintro ⟨hu2, hm2⟩
              have hnl := List.find?_eq_none.mp hlf a ha
              apply hnl
              simp [hu2, hm2]
  all_goals
    rename_i heq
    simp only [create_user, update_user, delete_user, create_group, delete_group,
      add_member, remove_member, post_message, edit_message, delete_message,
      unlike_message] at heq
    rcases withGuard_some heq with rfl | hbody
    · exact hok
    · try dsimp only at hbody
      repeat' split at hbody
      all_goals
        try (rcases some_pair_eq hbody with ⟨-, rfl⟩)
      all_goals
        first
          | exact Option.noConfusion hbody
          | exact hok
          | exact List.Pairwise.filter _ hok
          | exact List.Pairwise.sublist (List.eraseP_sublist _) hok

/-- Claim C3: from any state whose like table has no duplicate
(user, message) pair, every sequence of API calls preserves that
uniqueness; and a repeated like by the same caller on the same message
returns 400 "Already liked this message" with the state unchanged. -/
theorem like_per_pair_unique :
    (∀ st0 st, LikesOK st0.likes → Reachable st0 st → LikesOK st.likes)
    ∧ (∀ (st : St) (caller gid mid : Nat) (u : UserR) (g : GroupR)
        (m : MessageR) (lk : LikeR),
        st.users.find? (fun v => v.id == caller) = some u →
        u.is_active = true →
        st.groups.find? (fun v => v.id == gid) = some g →
        st.messages.find? (fun v => v.id == mid && v.group_id == gid) = some m →
        m.user_id ≠ caller →
        st.likes.find? (fun l => l.user_id == caller && l.message_id == mid) = some lk →
        like_message st caller gid mid =
          some (.err 400 "Already liked this message", st)) := by
  constructor
  · intro st0 st h0 hreach
    induction hreach with
    | refl => exact h0
    | tail hsteps hstep ih => exact step_likesOK hstep ih
  · intro st caller gid mid u g m lk hu hact hg hm hne hlk
    have hb : (m.user_id == caller) = false := beq_eq_false_iff_ne.mpr hne
    unfold like_message
    rw [withGuard_proceed st groupRoles caller _
      (roleRequired_groupRoles_proceed st caller u hu hact)]
    simp [hg, hm, hb, hlk]

/-- Witness for C3: the sample like table is duplicate-free, stays so
after user 1 likes message 3, and user 1 liking message 2 again is
refused with the table unchanged. -/
theorem like_per_pair_unique_witness :
    LikesOK (St.likes
      { sampleSt with likes := [⟨1, 1, 2⟩, ⟨2, 1, 3⟩], nextLikeId := 3 })
    ∧ like_message sampleSt 1 1 2 =
        some (.err 400 "Already liked this message", sampleSt) := by
  constructor
  · exact like_per_pair_unique.1 sampleSt _
      (by simp [LikesOK, sampleSt])
      (Relation.ReflTransGen.tail Relation.ReflTransGen.refl
        (@Step.likeMessage sampleSt
          { sampleSt with likes := [⟨1, 1, 2⟩, ⟨2, 1, 3⟩], nextLikeId := 3 }
          1 1 3 (.ok 201 (.note "Liked successfully")) rfl))
  · exact like_per_pair_unique.2 sampleSt 1 1 2 sampleU1 ⟨1, "g1", [2]⟩
      sampleM2 ⟨1, 1, 2⟩ rfl rfl rfl rfl (by decide) rfl

end GroupMessaging
